import Mathlib

/-!
Verification of the yt-digest repository (src/app.py) against its
natural-language specification.

The Python source is shallowly embedded: pure functions become Lean
functions, Python dictionaries and JSON values become an inductive
`PyVal`, Python exceptions become `Except` values, and the external
collaborators (the scrapetube video search, the YouTube transcript
service, the OpenAI generation service and the Resend mail service) are
passed in as function parameters, exactly as the test-suite injects
mocks for them.
-/

/-! ## Python-value model

JSON-like values as produced by `scrapetube` search results and JSON
configuration files.  Numbers never occur in any code path a claim
touches, so they are omitted. -/

inductive PyVal : Type where
  | str (s : String)
  | obj (fields : List (String × PyVal))
  | arr (items : List PyVal)
  | null

/-- The Python exceptions that the subscript expressions in
`get_recent_transcripts` can raise: `video["title"]["runs"][0]["text"]`
raises `KeyError` for a missing dictionary key, `IndexError` for an
out-of-range sequence index, and `TypeError` when subscripting a value
that does not support that subscript. -/
inductive PyErr : Type where
  | keyError
  | indexError
  | typeError
  deriving DecidableEq

/-- A video descriptor yielded by the search collaborator: a Python
dictionary, i.e. string-keyed fields. -/
abbrev Video := List (String × PyVal)

/-- Python subscript `v[key]` with a string key (src/app.py line 188).
Dictionaries look the key up (`KeyError` when absent); lists, strings and
`None` raise `TypeError` for string subscripts. -/
def pySubscriptField (v : PyVal) (key : String) : Except PyErr PyVal :=
  match v with
  | PyVal.obj fields =>
      match fields.lookup key with
      | some x => Except.ok x
      | Option.none => Except.error PyErr.keyError
  | PyVal.arr _ => Except.error PyErr.typeError
  | PyVal.str _ => Except.error PyErr.typeError
  | PyVal.null => Except.error PyErr.typeError

/-- Python subscript `v[i]` with an integer index (src/app.py line 188).
Lists index (`IndexError` when out of range); a string-keyed dictionary
raises `KeyError` for an integer key; strings index into their
characters (`IndexError` when out of range); `None` raises `TypeError`. -/
def pySubscriptIndex (v : PyVal) (i : Nat) : Except PyErr PyVal :=
  match v with
  | PyVal.arr items =>
      match items[i]? with
      | some x => Except.ok x
      | Option.none => Except.error PyErr.indexError
  | PyVal.obj _ => Except.error PyErr.keyError
  | PyVal.str s =>
      match s.data[i]? with
      | some c => Except.ok (PyVal.str (String.mk [c]))
      | Option.none => Except.error PyErr.indexError
  | PyVal.null => Except.error PyErr.typeError

/-- The expression `video["title"]["runs"][0]["text"]`
(src/app.py line 188). -/
def extract_title (video : Video) : Except PyErr PyVal :=
  match video.lookup "title" with
  | Option.none => Except.error PyErr.keyError
  | some t =>
      match pySubscriptField t "runs" with
      | Except.error e => Except.error e
      | Except.ok r =>
          match pySubscriptIndex r 0 with
          | Except.error e => Except.error e
          | Except.ok f => pySubscriptField f "text"

/-- Title selection with its fallback (src/app.py lines 187-190):
`except (KeyError, IndexError): title = "Unknown Title"`.  Any other
exception (`TypeError`) is not handled there and propagates. -/
def title_of (video : Video) : Except PyErr PyVal :=
  match extract_title video with
  | Except.ok t => Except.ok t
  | Except.error PyErr.keyError => Except.ok (PyVal.str "Unknown Title")
  | Except.error PyErr.indexError => Except.ok (PyVal.str "Unknown Title")
  | Except.error PyErr.typeError => Except.error PyErr.typeError

/-- The observable outcome of the whole transcript-fetch interaction for
one video (src/app.py lines 196-216): either the list of text segments
of the fetched transcript, or one of the three handled failure classes
(`TranscriptsDisabled`, `NoTranscriptFound`, any other exception). -/
inductive FetchOutcome : Type where
  | success (segments : List String)
  | disabled
  | notFound
  | otherError

/-- One emitted record
`{"video_id": video_id, "title": title, "transcript": transcript_text}`
(src/app.py line 228).  `video_id` is `video.get("videoId")`, which is
Python `None` when the key is absent. -/
structure TranscriptRecord : Type where
  video_id : PyVal
  title : PyVal
  transcript : String

/-- The per-video loop of `get_recent_transcripts`
(src/app.py lines 185-230): for each descriptor, read `videoId` via
`dict.get`, extract the title (possible uncaught `TypeError`), then run
the transcript interaction; the three failure outcomes `continue` to the
next video, success appends a record. -/
def processVideos (api : Option PyVal → FetchOutcome) :
    List Video → Except PyErr (List TranscriptRecord)
  | [] => Except.ok []
  | v :: rest =>
      match title_of v with
      | Except.error e => Except.error e
      | Except.ok title =>
          match processVideos api rest with
          | Except.error e => Except.error e
          | Except.ok tail =>
              match api (v.lookup "videoId") with
              | FetchOutcome.success segs =>
                  Except.ok
                    ({ video_id := (v.lookup "videoId").getD PyVal.null,
                       title := title,
                       transcript := String.intercalate " " segs } :: tail)
              | FetchOutcome.disabled => Except.ok tail
              | FetchOutcome.notFound => Except.ok tail
              | FetchOutcome.otherError => Except.ok tail

/-! ## The sp-parameter decoder (src/app.py lines 16-62) -/

/-- The fixed `sort_by_reverse_map` dictionary (src/app.py lines 38-43),
as a lookup on the code character. -/
def sort_by_reverse_map (c : Char) : Option String :=
  if c = 'A' then some "relevance"
  else if c = 'I' then some "upload_date"
  else if c = 'M' then some "view_count"
  else if c = 'E' then some "rating"
  else Option.none

/-- `decode_sp_parameter` on the character list of the token.  The
Python guard `sp_param.startswith("CA") and len(sp_param) > 2` followed
by `sort_by_code = sp_param[2]` is exactly the pattern
`'C' :: 'A' :: c :: rest`; every other shape reaches the `else` branch
and returns `None` (src/app.py lines 45-59).  The `try` around the body
is dead: no expression in it can raise. -/
def decodeSpChars : List Char → Option String
  | 'C' :: 'A' :: c :: _ => sort_by_reverse_map c
  | _ => Option.none

/-- `decode_sp_parameter` (src/app.py lines 16-62). -/
def decode_sp_parameter (sp_param : String) : Option String :=
  decodeSpChars sp_param.data

/-! ## The URL model (CPython `urllib.parse`, as used by src/app.py)

`parse_youtube_search_input` calls `urlparse` and `parse_qs` and only
consumes the `query` component of the split result.  The model below
embeds exactly the slice of CPython 3.11 `urllib/parse.py` that
determines that component and the one `ValueError` that `urlsplit`
itself can raise ("Invalid IPv6 URL" for a net-location containing an
unmatched bracket). -/

/-- WHATWG C0-control-or-space predicate: `urlsplit` strips these from
the left of the URL. -/
def c0OrSpace (c : Char) : Bool := c.toNat ≤ 0x20

/-- `urlsplit` removes the unsafe bytes tab, CR and LF anywhere in the
URL. -/
def removeUnsafe (l : List Char) : List Char :=
  l.filter (fun c => !(c == '\t' || c == '\r' || c == '\n'))

/-- The characters allowed in a URL scheme
(`scheme_chars` in `urllib/parse.py`): ASCII letters and digits and
`+`, `-`, `.`. -/
def isSchemeChar (c : Char) : Bool :=
  c.isAlpha || c.isDigit || c == '+' || c == '-' || c == '.'

/-- Scheme removal in `urlsplit`: if the first `:` appears at position
`i > 0`, the first character is an ASCII letter and everything before
the colon is a scheme character, the part up to and including the colon
is removed (the repository only reads the query, so the scheme value
itself is irrelevant). -/
def splitScheme (l : List Char) : List Char :=
  match l.findIdx? (· == ':') with
  | some i =>
      if 0 < i then
        let pre := l.take i
        match pre with
        | c :: _ => if c.isAlpha && pre.all isSchemeChar then l.drop (i + 1) else l
        | [] => l
      else l
  | Option.none => l

/-- Net-location extraction in `urlsplit`: after a leading `//`, the
net-location runs to the first of `/`, `?` or `#`. -/
def netlocOf (l : List Char) : List Char :=
  (l.drop 2).takeWhile (fun c => !(c == '/' || c == '?' || c == '#'))

/-- Query extraction: `urlsplit` first splits off the fragment at the
first `#`, then the query is everything after the first `?` of what
remains.  Searching in the full post-scheme string is equivalent to
CPython, because neither the `//` marker nor the net-location (which
stops at the first `/`, `?` or `#`) can contain `?` or `#`. -/
def queryOf (l : List Char) : List Char :=
  ((l.takeWhile (· ≠ '#')).dropWhile (· ≠ '?')).drop 1

/-- The query component of `urlparse`, or the `ValueError` that
`urlsplit` raises for an unmatched IPv6 bracket in the net-location.
(The further `ValueError`s CPython can raise for invalid bracketed
hosts or unnormalised net-location characters are not modelled; the
repository treats every `ValueError` identically, so adding them would
only enlarge the fallback case.) -/
def urlsplitQuery (s : String) : Except String (List Char) :=
  let url := removeUnsafe (s.data.dropWhile c0OrSpace)
  let rest := splitScheme url
  if rest.take 2 = ['/', '/'] then
    let netloc := netlocOf rest
    if (netloc.contains '[' && !netloc.contains ']') ||
       (netloc.contains ']' && !netloc.contains '[') then
      Except.error "Invalid IPv6 URL"
    else
      Except.ok (queryOf rest)
  else
    Except.ok (queryOf rest)

/-! ## Percent decoding (`urllib.parse.unquote_plus`) -/

/-- Hexadecimal digit value, `Option.none` for non-hex characters. -/
def hexVal (c : Char) : Option Nat :=
  if '0' ≤ c ∧ c ≤ '9' then some (c.toNat - '0'.toNat)
  else if 'a' ≤ c ∧ c ≤ 'f' then some (c.toNat - 'a'.toNat + 10)
  else if 'A' ≤ c ∧ c ≤ 'F' then some (c.toNat - 'A'.toNat + 10)
  else Option.none

/-- Tokenise a percent-encoded string: a `%` followed by two hex digits
becomes the corresponding byte (`Sum.inr`), every other character stays
literal (`Sum.inl`); a `%` not followed by two hex digits stays a
literal `%`, matching CPython's `unquote`. -/
def percentTokens : List Char → List (Char ⊕ Nat)
  | '%' :: h₁ :: h₂ :: rest =>
      match hexVal h₁, hexVal h₂ with
      | some a, some b => Sum.inr (16 * a + b) :: percentTokens rest
      | _, _ => Sum.inl '%' :: percentTokens (h₁ :: h₂ :: rest)
  | '%' :: rest => Sum.inl '%' :: percentTokens rest
  | c :: rest => Sum.inl c :: percentTokens rest
  | [] => []

/-- Is `b` a UTF-8 continuation byte? -/
def isCont (b : Nat) : Bool := 0x80 ≤ b && b ≤ 0xBF

/-- The replacement character U+FFFD used by `errors="replace"`. -/
def replChar : Char := Char.ofNat 0xFFFD

/-- UTF-8 decoding with U+FFFD replacement (CPython's
`bytes.decode("utf-8", errors="replace")`, maximal-subpart policy).
Written with a fuel parameter (one unit per emitted character, each of
which consumes at least one byte) so the recursion is structural; the
wrapper supplies `length` as fuel, which always suffices.
Only ever applied to the byte runs produced by percent escapes. -/
def utf8DecodeReplaceAux : Nat → List Nat → List Char
  | 0, _ => []
  | _ + 1, [] => []
  | fuel + 1, b :: rest =>
      if b < 0x80 then Char.ofNat b :: utf8DecodeReplaceAux fuel rest
      else if 0xC2 ≤ b && b ≤ 0xDF then
        match rest with
        | b₂ :: rest₂ =>
            if isCont b₂ then
              Char.ofNat ((b - 0xC0) * 0x40 + (b₂ - 0x80)) :: utf8DecodeReplaceAux fuel rest₂
            else replChar :: utf8DecodeReplaceAux fuel rest
        | [] => [replChar]
      else if 0xE0 ≤ b && b ≤ 0xEF then
        match rest with
        | b₂ :: rest₂ =>
            if (if b = 0xE0 then 0xA0 ≤ b₂ && b₂ ≤ 0xBF
                else if b = 0xED then 0x80 ≤ b₂ && b₂ ≤ 0x9F
                else isCont b₂) then
              match rest₂ with
              | b₃ :: rest₃ =>
                  if isCont b₃ then
                    Char.ofNat ((b - 0xE0) * 0x1000 + (b₂ - 0x80) * 0x40 + (b₃ - 0x80)) ::
                      utf8DecodeReplaceAux fuel rest₃
                  else replChar :: utf8DecodeReplaceAux fuel rest₂
              | [] => [replChar]
            else replChar :: utf8DecodeReplaceAux fuel rest
        | [] => [replChar]
      else if 0xF0 ≤ b && b ≤ 0xF4 then
        match rest with
        | b₂ :: rest₂ =>
            if (if b = 0xF0 then 0x90 ≤ b₂ && b₂ ≤ 0xBF
                else if b = 0xF4 then 0x80 ≤ b₂ && b₂ ≤ 0x8F
                else isCont b₂) then
              match rest₂ with
              | b₃ :: rest₃ =>
                  if isCont b₃ then
                    match rest₃ with
                    | b₄ :: rest₄ =>
                        if isCont b₄ then
                          Char.ofNat ((b - 0xF0) * 0x40000 + (b₂ - 0x80) * 0x1000 +
                              (b₃ - 0x80) * 0x40 + (b₄ - 0x80)) :: utf8DecodeReplaceAux fuel rest₄
                        else replChar :: utf8DecodeReplaceAux fuel rest₃
                    | [] => [replChar]
                  else replChar :: utf8DecodeReplaceAux fuel rest₂
              | [] => [replChar]
            else replChar :: utf8DecodeReplaceAux fuel rest
        | [] => [replChar]
      else replChar :: utf8DecodeReplaceAux fuel rest

/-- UTF-8 decoding with U+FFFD replacement. -/
def utf8DecodeReplace (l : List Nat) : List Char :=
  utf8DecodeReplaceAux l.length l

/-- Fold the token stream back into characters: maximal runs of escape
bytes are decoded as UTF-8 with replacement, literal characters pass
through (CPython decodes exactly the consecutive percent-escape runs as
one byte string). -/
def decodeTokensAux (acc : List Nat) : List (Char ⊕ Nat) → List Char
  | [] => utf8DecodeReplace acc.reverse
  | Sum.inl c :: rest => utf8DecodeReplace acc.reverse ++ c :: decodeTokensAux [] rest
  | Sum.inr b :: rest => decodeTokensAux (b :: acc) rest

/-- `urllib.parse.unquote(s, errors="replace")` on character lists. -/
def pyUnquote (l : List Char) : List Char :=
  decodeTokensAux [] (percentTokens l)

/-- `urllib.parse.unquote_plus`: `+` becomes a space, then percent
decoding. -/
def pyUnquotePlus (l : List Char) : List Char :=
  pyUnquote (l.map (fun c => if c == '+' then ' ' else c))

/-! ## Query-string parsing (`urllib.parse.parse_qs`) -/

/-- `qs.split("&")` on character lists. -/
def splitOnAmp : List Char → List (List Char)
  | [] => [[]]
  | '&' :: rest => [] :: splitOnAmp rest
  | c :: rest =>
      match splitOnAmp rest with
      | [] => [[c]]
      | h :: t => (c :: h) :: t

/-- `parse_qsl` with CPython's defaults (`keep_blank_values=False`,
`strict_parsing=False`, separator `&`): empty fields, fields without
`=` and fields with an empty value are skipped; surviving names and
values are `unquote_plus`-decoded.  The decoded `(name, value)` pairs
are kept in query order. -/
def parse_qsl (qs : List Char) : List (List Char × List Char) :=
  (splitOnAmp qs).filterMap (fun nv =>
    if nv = [] then Option.none
    else
      let name := nv.takeWhile (· ≠ '=')
      if name = nv then Option.none
      else
        let value := (nv.dropWhile (· ≠ '=')).drop 1
        if value = [] then Option.none
        else some (pyUnquotePlus name, pyUnquotePlus value))

/-- `parse_qs(...)[key][0]` with a default: the first value paired with
`key` in query order, which is what `query_params.get(key, [d])[0]`
returns (`parse_qs` groups values per name in order of appearance). -/
def qsGet (pairs : List (List Char × List Char)) (key : List Char) :
    Option (List Char) :=
  (pairs.find? (fun p => p.1 == key)).map (fun p => p.2)

/-! ## `parse_youtube_search_input` (src/app.py lines 65-126) -/

/-- Python substring containment `needle in haystack` on character
lists. -/
def containsSub : List Char → List Char → Bool
  | needle, [] => needle.isEmpty
  | needle, c :: rest => needle.isPrefixOf (c :: rest) || containsSub needle rest

/-- The URL branch of `parse_youtube_search_input`
(src/app.py lines 99-123): the `try` body parses the URL and builds the
result; the sole raising operation in the body is `urlparse`
(`parse_qs`, `dict.get` and `decode_sp_parameter` cannot raise), so the
`except` branch returning `(search_input, None)` corresponds to the
`Except.error` case of `urlsplitQuery`.  `sp_param` truthiness
(`if sp_param:`) is an emptiness test on the extracted value. -/
def urlBranch (search_input : String) : String × Option String :=
  match urlsplitQuery search_input with
  | Except.error _ => (search_input, Option.none)
  | Except.ok query =>
      let pairs := parse_qsl query
      let search_query : String :=
        match qsGet pairs "search_query".data with
        | some v => String.mk v
        | Option.none => search_input
      let sort_by : Option String :=
        match qsGet pairs "sp".data with
        | some sp =>
            if sp = [] then Option.none else decode_sp_parameter (String.mk sp)
        | Option.none => Option.none
      (search_query, sort_by)

/-- `parse_youtube_search_input` (src/app.py lines 65-126): the input is
treated as a URL when it contains `"://"` or starts with `"www."`,
otherwise returned verbatim with no sort preference. -/
def parse_youtube_search_input (search_input : String) : String × Option String :=
  if containsSub "://".data search_input.data
      || List.isPrefixOf "www.".data search_input.data then
    urlBranch search_input
  else
    (search_input, Option.none)

/-! ## `get_recent_transcripts` (src/app.py lines 154-230) -/

/-- `get_recent_transcripts`.  The two collaborators are parameters:
`search` stands for `scrapetube.get_search(query, limit, sort_by,
results_type="video")` — the descriptor sequence it yields for the
given query, limit and sort order — and `api` for the per-video
transcript interaction.  The function parses the input, defaults the
sort order to `"relevance"` when none was extracted
(`if not sort_by:` is also true for an empty string), requests the
search results and folds them with the per-video loop.  Note the loop
consumes everything `search` yields; no truncation to `limit` happens
here. -/
def get_recent_transcripts (search : String → Int → String → List Video)
    (api : Option PyVal → FetchOutcome) (keyword : String) (limit : Int) :
    Except PyErr (List TranscriptRecord) :=
  let parsed := parse_youtube_search_input keyword
  let sort_by : String :=
    match parsed.2 with
    | some s => if s = "" then "relevance" else s
    | Option.none => "relevance"
  processVideos api (search parsed.1 limit sort_by)

/-! ## Configuration loading -/

/-- ASCII whitespace for Python `str.strip()` (the further Unicode
space characters Python also strips never appear in the inputs the
claims mention). -/
def pyIsSpace (c : Char) : Bool :=
  c == ' ' || c == '\t' || c == '\n' || c == '\r' || c == '\x0b' || c == '\x0c'

/-- Python `str.strip()`. -/
def pyStrip (s : String) : String :=
  String.mk (((s.data.dropWhile pyIsSpace).reverse.dropWhile pyIsSpace).reverse)

/-- One validated configuration entry, both fields trimmed. -/
structure ConfigEntry : Type where
  email : String
  search_url : String
  deriving DecidableEq

/-- Structural failures of configuration loading: the file-absent case
(`NotFound`) is file I/O and outside this embedding; `invalidFormat`
covers a non-array document and a non-object element, which the tests
require to raise `ValueError`. -/
inductive ConfigError : Type where
  | invalidFormat
  deriving DecidableEq

/-- Modelled from the spec: `load_email_list_config` is imported by
src/tests/test_email_list_config.py from `app`, but no definition
exists under src/ — only its tests.  Per-element validation follows
spec §4.3 and the tests: `email` must be a string that is non-blank
after stripping and contains `"@"`, `search_url` must be a string that
is non-blank after stripping; a failing element yields no entry (it is
logged and skipped); an accepted element has both fields
whitespace-trimmed. -/
def validate_entry (fields : List (String × PyVal)) : Option ConfigEntry :=
  match fields.lookup "email" with
  | some (PyVal.str e) =>
      if pyStrip e = "" then Option.none
      else if !(e.data.contains '@') then Option.none
      else
        match fields.lookup "search_url" with
        | some (PyVal.str u) =>
            if pyStrip u = "" then Option.none
            else some { email := pyStrip e, search_url := pyStrip u }
        | _ => Option.none
  | _ => Option.none

/-- Modelled from the spec: `load_email_list_config` from the parsed
JSON document onward (file reading and JSON decoding are I/O and
elided; their failures are the `NotFound`/`InvalidFormat` cases the
tests exercise separately).  Per spec §4.3 and
test_load_config_not_array / test_load_config_entry_not_object, a
non-array document and an array containing a non-object element fail
with `InvalidFormat` (`ValueError`); otherwise the valid entries are
returned in input order and invalid elements are skipped, an empty
result being legitimate. -/
def load_email_list_config (doc : PyVal) : Except ConfigError (List ConfigEntry) :=
  match doc with
  | PyVal.arr entries =>
      if entries.any (fun v => match v with | PyVal.obj _ => false | _ => true) then
        Except.error ConfigError.invalidFormat
      else
        Except.ok (entries.filterMap (fun v =>
          match v with
          | PyVal.obj fields => validate_entry fields
          | _ => Option.none))
  | _ => Except.error ConfigError.invalidFormat

/-! ## `generate_newsletter_digest` (src/app.py lines 251-331) -/

/-- The two failure classes of `generate_newsletter_digest`:
`ValueError` when the credential is missing (`ConfigurationError`) and
`RuntimeError` otherwise (`GenerationError`). -/
inductive DigestError : Type where
  | configurationError
  | generationError
  deriving DecidableEq

/-- `generate_newsletter_digest` (src/app.py lines 251-331) with the
OpenAI collaborator abstracted: `service` is the outcome of
`client.chat.completions.create(...).choices[0].message.content` — an
exception (`Except.error`), or the optional content string (`None`
when the API returned no content).  The prompt built from `json_data`
only feeds that call and cannot affect which branch is taken, so it is
not modelled.  `os.getenv` yields `Option.none` when the variable is
unset; `if not api_key:` is also true for an empty string.  The
`raise RuntimeError("OpenAI returned empty content")` for `None`
content sits inside the same `try`, so it too surfaces as the generic
`RuntimeError("OpenAI API call failed")`: both are `generationError`. -/
def generate_newsletter_digest (api_key : Option String)
    (service : Except Unit (Option String)) : Except DigestError String :=
  match api_key with
  | Option.none => Except.error DigestError.configurationError
  | some k =>
      if k = "" then Except.error DigestError.configurationError
      else
        match service with
        | Except.error _ => Except.error DigestError.generationError
        | Except.ok Option.none => Except.error DigestError.generationError
        | Except.ok (some content) => Except.ok content

/-! ## `send_newsletter_resend` (src/app.py lines 374-423) -/

/-- What `send_newsletter_resend` did on a non-raising return: skipped
because no mail credential was configured, skipped because there were
no recipients, or actually delivered. -/
inductive SendOutcome : Type where
  | skippedNoApiKey
  | skippedNoRecipients
  | sent
  deriving DecidableEq

/-- `send_newsletter_resend` (src/app.py lines 374-423) with the Resend
collaborator abstracted: `service` is the outcome of
`resend.Emails.send(params)` — an exception, or the response
dictionary.  The Markdown-to-HTML rendering of the body only feeds the
request parameters and cannot affect the control flow, so it is not
modelled.  `if not api_key:` treats an unset and an empty credential
alike; an empty recipient list is the second no-op.  The success test
`if email and "id" in email:` holds for a dictionary exactly when it
has an `"id"` key (an empty dictionary is falsy and has no keys); the
`raise RuntimeError(...)` for a missing id sits inside the `try` and is
re-raised by the generic handler, so every delivery failure surfaces
as a `RuntimeError`. -/
def send_newsletter_resend (api_key : Option String) (recipients : List String)
    (service : Except Unit (List (String × String))) : Except Unit SendOutcome :=
  match api_key with
  | Option.none => Except.ok SendOutcome.skippedNoApiKey
  | some k =>
      if k = "" then Except.ok SendOutcome.skippedNoApiKey
      else if recipients = [] then Except.ok SendOutcome.skippedNoRecipients
      else
        match service with
        | Except.error _ => Except.error ()
        | Except.ok resp =>
            match resp.lookup "id" with
            | some _ => Except.ok SendOutcome.sent
            | Option.none => Except.error ()

/-! ## Spec-side characterization of the per-video loop

Used to state the skip/order property: the record a video contributes
when (and only when) its transcript interaction succeeds. -/

/-- The record the spec says a video contributes: present exactly when
the transcript interaction succeeds, absent for every failure outcome. -/
def recordFor (api : Option PyVal → FetchOutcome) (v : Video) :
    Option TranscriptRecord :=
  match api (v.lookup "videoId") with
  | FetchOutcome.success segs =>
      some { video_id := (v.lookup "videoId").getD PyVal.null,
             title :=
               match title_of v with
               | Except.ok t => t
               | Except.error _ => PyVal.str "Unknown Title",
             transcript := String.intercalate " " segs }
  | FetchOutcome.disabled => Option.none
  | FetchOutcome.notFound => Option.none
  | FetchOutcome.otherError => Option.none

/-- The list of records of the successfully fetched videos, in search
order. -/
def collectedRecords (api : Option PyVal → FetchOutcome)
    (videos : List Video) : List TranscriptRecord :=
  videos.filterMap (recordFor api)

/-! ## Concrete sample data (mirroring the test fixtures) -/

/-- The first fixture descriptor of src/tests/test_transcripts.py. -/
def sampleVideo1 : Video :=
  [("videoId", PyVal.str "vid_1"),
   ("title", PyVal.obj [("runs", PyVal.arr [PyVal.obj [("text", PyVal.str "Test Video 1")]])])]

/-- The second fixture descriptor of src/tests/test_transcripts.py. -/
def sampleVideo2 : Video :=
  [("videoId", PyVal.str "vid_2"),
   ("title", PyVal.obj [("runs", PyVal.arr [PyVal.obj [("text", PyVal.str "Test Video 2")]])])]

/-- A descriptor with no `videoId` key and a well-formed title. -/
def sampleVideoNoId : Video :=
  [("title", PyVal.obj [("runs", PyVal.arr [PyVal.obj [("text", PyVal.str "No Id")]])])]

/-- A transcript collaborator that reports transcripts disabled for
`vid_2` and succeeds for everything else. -/
def sampleApi : Option PyVal → FetchOutcome :=
  fun vid =>
    match vid with
    | some (PyVal.str s) =>
        if s = "vid_2" then FetchOutcome.disabled
        else FetchOutcome.success ["Hello", "world"]
    | _ => FetchOutcome.success ["Hola", "mundo"]

/-- A search collaborator honouring its limit argument, as scrapetube
does. -/
def sampleSearch : String → Int → String → List Video :=
  fun _ limit _ => if 1 ≤ limit then [sampleVideo1] else []

/-- A search collaborator that ignores its limit argument and always
yields two descriptors. -/
def overyieldSearch : String → Int → String → List Video :=
  fun _ _ _ => [sampleVideo1, sampleVideo2]

/-! ## Helper lemmas -/

/-- `containsSub` decides substring containment. -/
theorem containsSub_iff_infix (needle hay : List Char) :
    containsSub needle hay = true ↔ needle <:+: hay := by
  induction hay with
  | nil => simp [containsSub, List.isEmpty_iff, List.infix_nil]
  | cons c rest ih =>
      rw [containsSub, Bool.or_eq_true, List.isPrefixOf_iff_prefix, ih,
        ← List.infix_cons_iff]

/-- The per-video loop never emits more records than it was fed
descriptors. -/
theorem processVideos_length_le (api : Option PyVal → FetchOutcome)
    (videos : List Video) (recs : List TranscriptRecord)
    (h : processVideos api videos = Except.ok recs) :
    recs.length ≤ videos.length := by
  induction videos generalizing recs with
  | nil =>
      simp only [processVideos, Except.ok.injEq] at h
      simp [← h]
  | cons v rest ih =>
      rw [processVideos] at h
      cases ht : title_of v with
      | error e => rw [ht] at h; exact absurd h (by simp)
      | ok title =>
          rw [ht] at h
          cases hr : processVideos api rest with
          | error e => rw [hr] at h; exact absurd h (by simp)
          | ok tail =>
              rw [hr] at h
              have htail := ih tail hr
              cases ho : api (v.lookup "videoId") with
              | success segs =>
                  rw [ho] at h
                  simp only [Except.ok.injEq] at h
                  simp [← h, List.length_cons]
                  omega
              | disabled =>
                  rw [ho] at h
                  simp only [Except.ok.injEq] at h
                  subst h; exact Nat.le_succ_of_le htail
              | notFound =>
                  rw [ho] at h
                  simp only [Except.ok.injEq] at h
                  subst h; exact Nat.le_succ_of_le htail
              | otherError =>
                  rw [ho] at h
                  simp only [Except.ok.injEq] at h
                  subst h; exact Nat.le_succ_of_le htail

/-! ## C1 — limit enforcement in `get_recent_transcripts` -/

/-- C1, counterexample: `get_recent_transcripts` does not itself cap its
output at `limit` — the cap lives in the `limit` argument passed to
`scrapetube.get_search`.  With a search collaborator that yields two
descriptors despite `limit = 1` (both transcripts succeeding), the
function returns two records, more than `limit`. -/
theorem C1_limit_counterexample :
    (get_recent_transcripts overyieldSearch
        (fun _ => FetchOutcome.success ["Hello", "world"]) "test" 1).map List.length =
      Except.ok 2
    ∧ ¬((2 : Int) ≤ 1) := by
  constructor
  · rfl
  · decide

/-- C1, amended: `get_recent_transcripts` returns at most as many
records as the search collaborator yields descriptors; in particular,
whenever the collaborator yields at most `limit` descriptors for the
`limit` it is handed (as `scrapetube.get_search` does), the result has
at most `limit` entries. -/
theorem C1_limit_amended (search : String → Int → String → List Video)
    (api : Option PyVal → FetchOutcome) (keyword : String) (limit : Int)
    (recs : List TranscriptRecord)
    (hsearch : ∀ q s, ((search q limit s).length : Int) ≤ limit)
    (h : get_recent_transcripts search api keyword limit = Except.ok recs) :
    (recs.length : Int) ≤ limit := by
  unfold get_recent_transcripts at h
  have hlen := processVideos_length_le api _ recs h
  have hbound := hsearch (parse_youtube_search_input keyword).1
    (match (parse_youtube_search_input keyword).2 with
     | some s => if s = "" then "relevance" else s
     | Option.none => "relevance")
  omega

/-- C1, witness for the amended theorem at concrete inputs. -/
theorem C1_limit_witness :
    ((([{ video_id := PyVal.str "vid_1", title := PyVal.str "Test Video 1",
          transcript := "Hello world" }] : List TranscriptRecord).length : Int) ≤ 2) :=
  C1_limit_amended sampleSearch sampleApi "test" 2 _
    (by
      intro q s
      unfold sampleSearch
      norm_num)
    (by rfl)

/-! ## C5 — per-video failures are skipped, order preserved -/

/-- C5: for any descriptor sequence whose titles extract without an
uncaught error, the per-video loop returns normally (no exception
reaches the caller), and its output is exactly the list of records of
the videos whose transcript interaction succeeded, in search order —
videos whose interaction reported transcripts disabled, no transcript
found, or any other exception contribute nothing (`recordFor` is
`Option.none` for all three failure outcomes). -/
theorem C5_skip_failed_videos (api : Option PyVal → FetchOutcome)
    (videos : List Video)
    (htitles : ∀ v ∈ videos, ∃ t, title_of v = Except.ok t) :
    processVideos api videos = Except.ok (collectedRecords api videos) := by
  induction videos with
  | nil => rfl
  | cons v rest ih =>
      obtain ⟨t, ht⟩ := htitles v (List.mem_cons_self v rest)
      have ihr := ih (fun w hw => htitles w (List.mem_cons_of_mem v hw))
      rw [processVideos, ht, ihr]
      cases ho : api (v.lookup "videoId") with
      | success segs =>
          simp [collectedRecords, List.filterMap_cons, recordFor, ho, ht]
      | disabled => simp [collectedRecords, List.filterMap_cons, recordFor, ho]
      | notFound => simp [collectedRecords, List.filterMap_cons, recordFor, ho]
      | otherError => simp [collectedRecords, List.filterMap_cons, recordFor, ho]

/-- C5, witness: the two fixture descriptors with a collaborator that
reports transcripts disabled for the second; the loop succeeds and the
disabled video is simply absent. -/
theorem C5_skip_witness :
    processVideos sampleApi [sampleVideo1, sampleVideo2] =
      Except.ok (collectedRecords sampleApi [sampleVideo1, sampleVideo2]) :=
  C5_skip_failed_videos sampleApi [sampleVideo1, sampleVideo2]
    (by
      intro v hv
      simp only [List.mem_cons, List.not_mem_nil, or_false] at hv
      rcases hv with rfl | rfl
      · exact ⟨PyVal.str "Test Video 1", by rfl⟩
      · exact ⟨PyVal.str "Test Video 2", by rfl⟩)

/-! ## C9 — a missing `videoId` does not skip the video -/

/-- C9: a descriptor without a `videoId` key is still processed — the
transcript interaction is invoked with the null identifier
(`video.get("videoId")` is Python `None`), and when it succeeds the
emitted record carries `video_id = None` rather than a string. -/
theorem C9_missing_videoId (api : Option PyVal → FetchOutcome) (v : Video)
    (rest : List Video) (segs : List String) (t : PyVal)
    (hid : v.lookup "videoId" = Option.none)
    (ht : title_of v = Except.ok t)
    (hapi : api Option.none = FetchOutcome.success segs) :
    processVideos api (v :: rest) =
      (processVideos api rest).map
        (fun tail =>
          { video_id := PyVal.null, title := t,
            transcript := String.intercalate " " segs } :: tail) := by
  rw [processVideos, ht, hid, hapi]
  cases processVideos api rest with
  | error e => rfl
  | ok tail => simp [hid, Except.map]

/-- C9, witness at a concrete descriptor lacking `videoId`. -/
theorem C9_missing_videoId_witness :
    processVideos sampleApi [sampleVideoNoId] =
      (processVideos sampleApi ([] : List Video)).map
        (fun tail =>
          { video_id := PyVal.null, title := PyVal.str "No Id",
            transcript := String.intercalate " " ["Hola", "mundo"] } :: tail) :=
  C9_missing_videoId sampleApi sampleVideoNoId [] ["Hola", "mundo"]
    (PyVal.str "No Id") (by rfl) (by rfl) (by rfl)

/-! ## C10 — the "Unknown Title" fallback catches only KeyError/IndexError -/

/-- C10: the `except (KeyError, IndexError)` fallback substitutes
`"Unknown Title"` exactly for those two errors; a `TypeError` from a
wrongly-typed title field (for example a string or null) is not caught,
so `get_recent_transcripts` raises instead of substituting or skipping:
(1) whenever title selection propagates an error it is a `TypeError`
coming from `video["title"]["runs"][0]["text"]`; (2) a `KeyError` or
`IndexError` there is turned into the `"Unknown Title"` fallback; (3,4)
with a descriptor whose title is the string `"hello"`, or null, the
whole of `get_recent_transcripts` raises `TypeError` even though the
transcript interaction would succeed. -/
theorem C10_unknown_title_fallback :
    (∀ (v : Video) (e : PyErr), title_of v = Except.error e →
        e = PyErr.typeError ∧ extract_title v = Except.error PyErr.typeError)
    ∧ (∀ v : Video,
        (extract_title v = Except.error PyErr.keyError ∨
          extract_title v = Except.error PyErr.indexError) →
        title_of v = Except.ok (PyVal.str "Unknown Title"))
    ∧ get_recent_transcripts
        (fun _ _ _ => [[("videoId", PyVal.str "vid_bad"), ("title", PyVal.str "hello")]])
        (fun _ => FetchOutcome.success ["x"]) "test" 10 =
        Except.error PyErr.typeError
    ∧ get_recent_transcripts
        (fun _ _ _ => [[("videoId", PyVal.str "vid_bad"), ("title", PyVal.null)]])
        (fun _ => FetchOutcome.success ["x"]) "test" 10 =
        Except.error PyErr.typeError := by
  refine ⟨?_, ?_, by rfl, by rfl⟩
  · intro v e h
    cases he : extract_title v with
    | ok t => rw [title_of, he] at h; exact absurd h (by simp)
    | error pe =>
        rw [title_of, he] at h
        cases pe with
        | keyError => exact absurd h (by simp)
        | indexError => exact absurd h (by simp)
        | typeError =>
            refine ⟨?_, rfl⟩
            injection h with h'
            exact h'.symm
  · intro v h
    rcases h with h | h <;> rw [title_of, h]

/-- C10, witness: a null title field propagates as a `TypeError`. -/
theorem C10_unknown_title_witness :
    PyErr.typeError = PyErr.typeError ∧
      extract_title [("title", PyVal.null)] = Except.error PyErr.typeError :=
  C10_unknown_title_fallback.1 [("title", PyVal.null)] PyErr.typeError (by rfl)

/-! ## C2 — `decode_sp_parameter` characterization -/

/-- Any token not of the shape `"CA"` + code character + rest decodes to
`None`. -/
theorem decodeSpChars_eq_none_of_not_shape (l : List Char)
    (h : ¬ ∃ c rest, l = 'C' :: 'A' :: c :: rest) :
    decodeSpChars l = Option.none := by
  rw [decodeSpChars.eq_def]
  split
  · exact absurd ⟨_, _, rfl⟩ h
  · rfl

/-- C2: `decode_sp_parameter` returns `relevance`, `upload_date`,
`view_count` or `rating` exactly when the token starts with `"CA"`, has
at least three characters, and its third character is `A`, `I`, `M` or
`E` respectively (the token shape `'C' :: 'A' :: c :: rest`); for every
other token — unknown third character, shorter than three characters,
or lacking the prefix, including `"CAXSAhAB"`, `""` and `"INVALID"` —
it returns `None` rather than raising (the embedding is total). -/
theorem C2_decode_sp_characterization :
    (∀ (s : String) (c : Char) (rest : List Char),
        s.data = 'C' :: 'A' :: c :: rest →
          (decode_sp_parameter s = some "relevance" ↔ c = 'A')
          ∧ (decode_sp_parameter s = some "upload_date" ↔ c = 'I')
          ∧ (decode_sp_parameter s = some "view_count" ↔ c = 'M')
          ∧ (decode_sp_parameter s = some "rating" ↔ c = 'E')
          ∧ (decode_sp_parameter s = Option.none ↔
              ¬(c = 'A' ∨ c = 'I' ∨ c = 'M' ∨ c = 'E')))
    ∧ (∀ s : String, (¬ ∃ c rest, s.data = 'C' :: 'A' :: c :: rest) →
        decode_sp_parameter s = Option.none)
    ∧ decode_sp_parameter "CAASBAgCEAE=" = some "relevance"
    ∧ decode_sp_parameter "CAISAhAB" = some "upload_date"
    ∧ decode_sp_parameter "CAMSAhAB" = some "view_count"
    ∧ decode_sp_parameter "CAESAhAB" = some "rating"
    ∧ decode_sp_parameter "CAXSAhAB" = Option.none
    ∧ decode_sp_parameter "" = Option.none
    ∧ decode_sp_parameter "INVALID" = Option.none := by
  refine ⟨?_, ?_, by rfl, by rfl, by rfl, by rfl, by rfl, by rfl, by rfl⟩
  · intro s c rest h
    rw [decode_sp_parameter, h]
    show (sort_by_reverse_map c = _ ↔ _) ∧ (sort_by_reverse_map c = _ ↔ _)
      ∧ (sort_by_reverse_map c = _ ↔ _) ∧ (sort_by_reverse_map c = _ ↔ _)
      ∧ (sort_by_reverse_map c = _ ↔ _)
    unfold sort_by_reverse_map
    split_ifs with h1 h2 h3 h4 <;> simp_all
  · intro s h
    rw [decode_sp_parameter]
    exact decodeSpChars_eq_none_of_not_shape s.data h

/-- C2, witness: the characterization applied to the token
`"CAISAhAB"`, whose third character is `I`. -/
theorem C2_decode_sp_witness :
    (decode_sp_parameter "CAISAhAB" = some "relevance" ↔ 'I' = 'A')
    ∧ (decode_sp_parameter "CAISAhAB" = some "upload_date" ↔ 'I' = 'I')
    ∧ (decode_sp_parameter "CAISAhAB" = some "view_count" ↔ 'I' = 'M')
    ∧ (decode_sp_parameter "CAISAhAB" = some "rating" ↔ 'I' = 'E')
    ∧ (decode_sp_parameter "CAISAhAB" = Option.none ↔
        ¬('I' = 'A' ∨ 'I' = 'I' ∨ 'I' = 'M' ∨ 'I' = 'E')) :=
  C2_decode_sp_characterization.1 "CAISAhAB" 'I' "SAhAB".data (by rfl)

/-! ## C7 — `parse_youtube_search_input` never raises -/

/-- C7: `parse_youtube_search_input` is total (the embedding returns a
pair for every input), any URL-parsing failure is caught and turned
into the raw input with no sort preference, and the spec's example
`"not-a-url-but-contains://something"` (which takes the URL branch and
parses successfully with no `search_query` parameter) comes back
verbatim with no sort preference. -/
theorem C7_parse_never_raises :
    (∀ (s : String) (e : String), urlsplitQuery s = Except.error e →
        parse_youtube_search_input s = (s, Option.none))
    ∧ parse_youtube_search_input "not-a-url-but-contains://something" =
        ("not-a-url-but-contains://something", Option.none) := by
  constructor
  · intro s e h
    unfold parse_youtube_search_input
    split
    · unfold urlBranch
      rw [h]
    · rfl
  · rfl

/-- C7, witness: `"http://["` makes the modelled `urlparse` raise
`Invalid IPv6 URL`, and the function falls back to the raw input. -/
theorem C7_parse_never_raises_witness :
    parse_youtube_search_input "http://[" = ("http://[", Option.none) :=
  C7_parse_never_raises.1 "http://[" "Invalid IPv6 URL" (by rfl)

/-! ## C3 — `parse_youtube_search_input` characterization -/

/-- C3, counterexample: for the input `"http://[?search_query=news"`
the claim requires the URL branch (the input contains `"://"`) to
return the url-decoded `search_query` parameter, which is present with
value `"news"` — but `urlparse` raises `ValueError: Invalid IPv6 URL`
on the unmatched bracket in the net-location, the `except` branch runs,
and the function returns the entire original input with no sort
preference instead. -/
theorem C3_parse_counterexample :
    containsSub "://".data "http://[?search_query=news".data = true
    ∧ qsGet
        (parse_qsl (queryOf (splitScheme
          (removeUnsafe ("http://[?search_query=news".data.dropWhile c0OrSpace)))))
        "search_query".data = some "news".data
    ∧ parse_youtube_search_input "http://[?search_query=news" =
        ("http://[?search_query=news", Option.none)
    ∧ ("http://[?search_query=news" : String) ≠ "news" :=
  ⟨by rfl, by rfl, by rfl, by decide⟩

/-- C3, amended: (1) the input is classified as a URL exactly when it
contains `"://"` or starts with `"www."`; (2) a non-URL input is
returned verbatim with no sort preference; (3) for a URL input whose
parsing succeeds, the result is the url-decoded first `search_query`
value (falling back to the entire original input when that parameter is
absent) together with the decoded `sp` parameter's sort order, an
absent or undecodable `sp` yielding no sort preference; (4) when URL
parsing raises, the function falls back to the entire original input
with no sort preference. -/
theorem C3_parse_amended (s : String) :
    ((containsSub "://".data s.data || List.isPrefixOf "www.".data s.data) = true ↔
      ((∃ a b, a ++ "://".data ++ b = s.data) ∨ (∃ b, "www.".data ++ b = s.data)))
    ∧ ((containsSub "://".data s.data || List.isPrefixOf "www.".data s.data) = false →
        parse_youtube_search_input s = (s, Option.none))
    ∧ (∀ q, (containsSub "://".data s.data || List.isPrefixOf "www.".data s.data) = true →
        urlsplitQuery s = Except.ok q →
        parse_youtube_search_input s =
          (match qsGet (parse_qsl q) "search_query".data with
           | some v => String.mk v
           | Option.none => s,
           match qsGet (parse_qsl q) "sp".data with
           | some sp =>
               if sp = [] then Option.none else decode_sp_parameter (String.mk sp)
           | Option.none => Option.none))
    ∧ (∀ e, urlsplitQuery s = Except.error e →
        parse_youtube_search_input s = (s, Option.none)) := by
  refine ⟨?_, ?_, ?_, ?_⟩
  · rw [Bool.or_eq_true, containsSub_iff_infix, List.isPrefixOf_iff_prefix]
    exact Iff.rfl
  · intro h
    simp [parse_youtube_search_input, h]
  · intro q hc hq
    simp only [parse_youtube_search_input, hc, if_true]
    unfold urlBranch
    rw [hq]
  · intro e h
    unfold parse_youtube_search_input
    split
    · unfold urlBranch
      rw [h]
    · rfl

/-- C3, witness: the amended characterization applied to the spec's
example URL `"https://x/results?search_query=news"`, whose query
component is `"search_query=news"`. -/
theorem C3_parse_witness :
    parse_youtube_search_input "https://x/results?search_query=news" =
      (match qsGet (parse_qsl "search_query=news".data) "search_query".data with
       | some v => String.mk v
       | Option.none => "https://x/results?search_query=news",
       match qsGet (parse_qsl "search_query=news".data) "sp".data with
       | some sp =>
           if sp = [] then Option.none else decode_sp_parameter (String.mk sp)
       | Option.none => Option.none) :=
  (C3_parse_amended "https://x/results?search_query=news").2.2.1
    "search_query=news".data (by rfl) (by rfl)

/-! ## C4 — configuration loading (spec-modelled) -/

/-- C4, counterexample: an array containing a non-object element does
not skip that element — per test_load_config_entry_not_object (and spec
§4.3) loading aborts with `ValueError`, so the valid remaining element
is not returned either. -/
theorem C4_config_counterexample :
    load_email_list_config (PyVal.arr [PyVal.str "string_entry",
        PyVal.obj [("email", PyVal.str "user1@example.com"),
                   ("search_url", PyVal.str "https://youtube.com/1")]]) =
      Except.error ConfigError.invalidFormat
    ∧ (Except.error ConfigError.invalidFormat : Except ConfigError (List ConfigEntry)) ≠
        Except.ok [{ email := "user1@example.com", search_url := "https://youtube.com/1" }] :=
  ⟨by rfl, by simp⟩

/-- C4, amended: for every configuration array all of whose elements
are objects, `load_email_list_config` returns exactly the elements
passing the field checks — `email` a string, non-blank after stripping
and containing `"@"`, and `search_url` a string, non-blank after
stripping — in input order with both fields whitespace-trimmed; field
failures are skipped and never abort loading of the remainder, and zero
valid entries yields an empty list rather than an error.  (A non-object
element instead aborts loading with an invalid-format error, see the
counterexample.)  The further conjuncts instantiate the field checks on
the inputs of the tests: trimming on acceptance, rejection of an email
without `"@"`, of a blank or missing email, of a missing or blank
search_url, and the empty array. -/
theorem C4_config_amended :
    (∀ entries : List (List (String × PyVal)),
        load_email_list_config (PyVal.arr (entries.map PyVal.obj)) =
          Except.ok (entries.filterMap validate_entry))
    ∧ validate_entry [("email", PyVal.str "  user@example.com  "),
        ("search_url", PyVal.str "  https://youtube.com/search  ")] =
        some { email := "user@example.com", search_url := "https://youtube.com/search" }
    ∧ validate_entry [("email", PyVal.str "invalid_email_without_at"),
        ("search_url", PyVal.str "https://www.youtube.com/results?search_query=python")] =
        Option.none
    ∧ validate_entry [("email", PyVal.str "   "),
        ("search_url", PyVal.str "https://x")] = Option.none
    ∧ validate_entry [("search_url",
        PyVal.str "https://www.youtube.com/results?search_query=python")] = Option.none
    ∧ validate_entry [("email", PyVal.str "user@example.com")] = Option.none
    ∧ validate_entry [("email", PyVal.str "user@example.com"),
        ("search_url", PyVal.str "")] = Option.none
    ∧ validate_entry [("email", PyVal.null),
        ("search_url", PyVal.str "https://youtube.com")] = Option.none
    ∧ load_email_list_config (PyVal.arr []) = Except.ok [] := by
  refine ⟨?_, by rfl, by rfl, by rfl, by rfl, by rfl, by rfl, by rfl, by rfl⟩
  intro entries
  have hfun : ((fun v => match v with
      | PyVal.obj fields => validate_entry fields
      | _ => Option.none) ∘ PyVal.obj) = validate_entry := funext (fun e => rfl)
  have hany : ((List.map PyVal.obj entries).any (fun v => match v with
      | PyVal.obj _ => false
      | _ => true)) = false := by
    rw [List.any_eq_false]
    intro v hv
    obtain ⟨e, _, rfl⟩ := List.mem_map.mp hv
    simp
  simp only [load_email_list_config, hany, Bool.false_eq_true, if_false,
    List.filterMap_map, hfun]

/-! ## C6 — `generate_newsletter_digest` error behaviour -/

/-- C6: with no generation credential — `OPENAI_API_KEY` unset, or set
to the empty string, which `if not api_key:` treats the same way — the
function fails with the configuration error regardless of the service;
with a credential, it fails with the generation error exactly when the
service call raises or the service returns empty (`None`) content, and
otherwise returns the service's content. -/
theorem C6_digest_errors :
    (∀ service : Except Unit (Option String),
        generate_newsletter_digest Option.none service =
          Except.error DigestError.configurationError
        ∧ generate_newsletter_digest (some "") service =
            Except.error DigestError.configurationError)
    ∧ (∀ (k : String) (service : Except Unit (Option String)), k ≠ "" →
        ((generate_newsletter_digest (some k) service =
            Except.error DigestError.generationError ↔
          (service = Except.error () ∨ service = Except.ok Option.none))
         ∧ (∀ c, service = Except.ok (some c) →
             generate_newsletter_digest (some k) service = Except.ok c))) := by
  constructor
  · intro service
    exact ⟨rfl, rfl⟩
  · intro k service hk
    constructor
    · cases service with
      | error u => simp [generate_newsletter_digest, hk]
      | ok content =>
          cases content with
          | none => simp [generate_newsletter_digest, hk]
          | some c => simp [generate_newsletter_digest, hk]
    · intro c hc
      subst hc
      simp [generate_newsletter_digest, hk]

/-- C6, witness: a configured credential and a service returning
content yields that content. -/
theorem C6_digest_witness :
    generate_newsletter_digest (some "sk-test") (Except.ok (some "digest")) =
      Except.ok "digest" :=
  (C6_digest_errors.2 "sk-test" (Except.ok (some "digest")) (by decide)).2 "digest" rfl

/-! ## C8 — `send_newsletter_resend` error behaviour -/

/-- C8: with no mail credential (unset or empty `RESEND_API_KEY`) the
function returns without sending and without raising, regardless of the
service; likewise with an empty recipients list; when it does attempt
delivery it raises the delivery error exactly when the mail service
raises or the service's response lacks an `"id"` field, and returns
normally (having sent) when the response carries an `"id"`. -/
theorem C8_send_newsletter :
    (∀ (recipients : List String) (service : Except Unit (List (String × String))),
        send_newsletter_resend Option.none recipients service =
          Except.ok SendOutcome.skippedNoApiKey
        ∧ send_newsletter_resend (some "") recipients service =
            Except.ok SendOutcome.skippedNoApiKey)
    ∧ (∀ (k : String) (service : Except Unit (List (String × String))), k ≠ "" →
        send_newsletter_resend (some k) [] service =
          Except.ok SendOutcome.skippedNoRecipients)
    ∧ (∀ (k : String) (recipients : List String)
          (service : Except Unit (List (String × String))),
        k ≠ "" → recipients ≠ [] →
        ((send_newsletter_resend (some k) recipients service = Except.error () ↔
            (service = Except.error () ∨
              ∃ resp, service = Except.ok resp ∧ resp.lookup "id" = Option.none))
         ∧ (∀ resp i, service = Except.ok resp → resp.lookup "id" = some i →
             send_newsletter_resend (some k) recipients service =
               Except.ok SendOutcome.sent))) := by
  refine ⟨?_, ?_, ?_⟩
  · intro recipients service
    exact ⟨rfl, rfl⟩
  · intro k service hk
    simp [send_newsletter_resend, hk]
  · intro k recipients service hk hr
    have hstep : ∀ resp : List (String × String),
        send_newsletter_resend (some k) recipients (Except.ok resp) =
          (match resp.lookup "id" with
           | some _ => Except.ok SendOutcome.sent
           | Option.none => Except.error ()) := by
      intro resp
      rw [send_newsletter_resend, if_neg hk, if_neg hr]
    have herr : send_newsletter_resend (some k) recipients (Except.error ()) =
        Except.error () := by
      rw [send_newsletter_resend, if_neg hk, if_neg hr]
    constructor
    · cases service with
      | error u =>
          cases u
          constructor
          · intro _
            exact Or.inl rfl
          · intro _
            exact herr
      | ok resp =>
          cases hid : resp.lookup "id" with
          | none =>
              rw [hstep resp, hid]
              constructor
              · intro _
                exact Or.inr ⟨resp, rfl, hid⟩
              · intro _
                rfl
          | some i =>
              rw [hstep resp, hid]
              constructor
              · intro h
                exact absurd h (by simp)
              · intro h
                rcases h with h | ⟨r, hr2, hlook⟩
                · exact absurd h (by simp)
                · injection hr2 with h3
                  subst h3
                  rw [hid] at hlook
                  exact Option.noConfusion hlook
    · intro resp i hresp hid
      subst hresp
      rw [hstep resp, hid]

/-- C8, witness: a configured credential, one recipient and a response
carrying an id — the mail is sent and nothing raises. -/
theorem C8_send_witness :
    send_newsletter_resend (some "re_fake_key") ["recipient@test.com"]
        (Except.ok [("id", "email_12345")]) = Except.ok SendOutcome.sent :=
  ((C8_send_newsletter.2.2 "re_fake_key" ["recipient@test.com"]
      (Except.ok [("id", "email_12345")]) (by decide) (by decide)).2
    [("id", "email_12345")] "email_12345" rfl (by rfl))
